import Mathlib

/-!
Verification of the AbdoPro training-progression core (algorithm engine,
comparative scorer, strategies, numeric toolkit) against its specification.

The JavaScript source is shallowly embedded: JS numbers are modelled as
rationals (ℚ), `Math.round` as `⌊x + 1/2⌋`, `Math.ceil`/`Math.floor` as the
integer ceiling/floor, and code that can throw returns `Except String _`.
Week records, scoring entries and plans are modelled as structures carrying
exactly the fields the embedded code reads.
-/

namespace AbdoPro

/- ══════════════ utils/math.js ══════════════ -/

/-- Embeds `clamp(value, min, max)` from utils/math.js: `Math.max(min, Math.min(max, value))`. -/
def clamp (value lo hi : ℚ) : ℚ := max lo (min hi value)

/-- Embeds `Math.round(value)` from JS (rounds halves towards +∞): `⌊value + 1/2⌋`. -/
def jsRound (value : ℚ) : ℚ := ((⌊value + 1/2⌋ : ℤ) : ℚ)

/-- Embeds `round(value, decimals)` from utils/math.js: `Math.round(value·10^d)/10^d`. -/
def roundTo (value : ℚ) (decimals : ℕ) : ℚ :=
  ((⌊value * 10 ^ decimals + 1/2⌋ : ℤ) : ℚ) / 10 ^ decimals

/-- Embeds `sum(values)` from utils/math.js: `values.reduce((acc, val) => acc + val, 0)`. -/
def jsSum (values : List ℚ) : ℚ := values.foldl (· + ·) 0

/-- Embeds `Math.max(...values)` on a list (used by `distributeVolume`; empty list unused there). -/
def jsListMax (values : List ℚ) : ℚ := values.foldl max (values.headD 0)

/-- Embeds `exponentialWeight(currentWeek, targetWeek, decay = 0.9)` from utils/math.js
    (week numbers are integral, so the JS `Math.pow` is an integer power). -/
def exponentialWeight (currentWeek targetWeek : ℤ) : ℚ :=
  (9/10) ^ (currentWeek - targetWeek).natAbs

/-- Embeds `calculateRest(reps, baseRest, threshold, addPerChunk, chunkSize)` from utils/math.js. -/
def calculateRest (reps baseRest threshold addPerChunk chunkSize : ℚ) : ℚ :=
  if reps ≤ threshold then baseRest
  else baseRest + ((⌊(reps - threshold) / chunkSize⌋ : ℤ) : ℚ) * addPerChunk

/-- Helper for `distributed[maxIndex] += diff` (in-place update of one list cell). -/
def addAt : List ℚ → ℕ → ℚ → List ℚ
  | [], _, _ => []
  | x :: xs, 0, d => (x + d) :: xs
  | x :: xs, n + 1, d => x :: addAt xs n d

/-- Embeds `distributeVolume(totalVolume, ratios)` from utils/math.js: normalize the ratios,
    round each bucket, then nudge the largest bucket so the sum is `round(totalVolume)`. -/
def distributeVolume (totalVolume : ℚ) (ratios : List ℚ) : List ℚ :=
  if ratios = [] then []
  else
    let totalOfRatios := jsSum ratios
    if totalOfRatios = 0 then ratios.map (fun _ => 0)
    else
      let normalized := ratios.map (· / totalOfRatios)
      let distributed := normalized.map (fun r => jsRound (totalVolume * r))
      let actualTotal := jsSum distributed
      let diff := jsRound totalVolume - actualTotal
      if diff ≠ 0 ∧ 0 < distributed.length then
        addAt distributed (distributed.indexOf (jsListMax distributed)) diff
      else distributed

/-- Embeds `detectTrend(values)` from utils/math.js. -/
def detectTrend (values : List ℚ) : String :=
  if values.length < 2 then "insufficient"
  else
    let first := values.headD 0
    let last := values.getLastD 0
    if first = 0 then "insufficient"
    else if |last - first| / first < 0.05 then "stagnant"
    else
      let increasing := values.Chain' (· ≤ ·)
      let decreasing := values.Chain' (· ≥ ·)
      if increasing then "increasing"
      else if decreasing then "decreasing"
      else if first < last then "increasing" else "decreasing"

/- ══════════════ data model ══════════════ -/

/-- One day of a weekly plan: `{series, reps, rest, type}`. -/
structure DayPlan where
  series : ℚ
  reps : ℚ
  rest : ℚ
  type : String
deriving Repr, DecidableEq

/-- A weekly plan: the six entries `day2` … `day7` (day 1 is the capacity test). -/
structure Plan where
  day2 : DayPlan
  day3 : DayPlan
  day4 : DayPlan
  day5 : DayPlan
  day6 : DayPlan
  day7 : DayPlan
deriving Repr, DecidableEq

/-- Apply a transformation to every day of a plan (the JS code iterates
    `Object.entries(plan)` over the six day keys). -/
def Plan.map (f : DayPlan → DayPlan) (p : Plan) : Plan :=
  ⟨f p.day2, f p.day3, f p.day4, f p.day5, f p.day6, f p.day7⟩

/-- The six days of a plan as a list. -/
def Plan.days (p : Plan) : List DayPlan :=
  [p.day2, p.day3, p.day4, p.day5, p.day6, p.day7]

/-- Embeds `feedbackSummary`: counts of the three feedback kinds, plus the optional
    pre-computed `rirMoyen` field read by the RIR strategy. -/
structure FeedbackSummary where
  facile : ℕ
  parfait : ℕ
  impossible : ℕ
  rirMoyen : Option ℚ
deriving Repr, DecidableEq

/-- A session record (the fields the embedded code reads). -/
structure Session where
  type : String
  status : String
  feedback : Option String
deriving Repr, DecidableEq

/-- A week record (the fields the embedded code reads); `testMax = none` models a
    missing/non-numeric `testMax`. -/
structure WeekRecord where
  weekNumber : ℤ
  testMax : Option ℚ
  selectedAlgorithm : Option String
  feedbackSummary : Option FeedbackSummary
  sessions : List Session
deriving Repr, DecidableEq

/-- Per-algorithm entry of `ScoringEntry.calculations`. -/
structure Calc where
  prediction : Option ℚ
  actual : Option ℚ
deriving Repr, DecidableEq

/-- An entry of the scoring history. -/
structure ScoringEntry where
  weekNumber : ℤ
  calculations : List (String × Calc)
  actual : Option ℚ
  predictions : List (String × Option ℚ)
deriving Repr, DecidableEq

/-- Week history, ascending. -/
abbrev History := List WeekRecord

/-- Scoring history. -/
abbrev ScoringHistory := List ScoringEntry

/-- The predictions map `{ algoName: predictedTestMax|null }` as an association list
    in eligibility order. -/
abbrev Predictions := List (String × Option ℚ)

/- ══════════════ algorithms/linear.js ══════════════ -/

namespace LinearAlgorithm

/-- One Prilepin intensity zone (`repsRatio` in the source is `repsFrac` here). -/
structure Zone where
  repsFrac : ℚ
  seriesLo : ℚ
  seriesHi : ℚ
  type : String
deriving Repr, DecidableEq

/-- Embeds `INTENSITY_ZONES` from linear.js (index 0 = day 2, …, 5 = day 7). -/
def INTENSITY_ZONES : List Zone :=
  [⟨0.60, 5, 6, "ENDURANCE"⟩,
   ⟨0.70, 4, 5, "MIXTE"⟩,
   ⟨0.80, 3, 4, "FORCE"⟩,
   ⟨0.65, 4, 5, "ENDURANCE"⟩,
   ⟨0.70, 4, 5, "MIXTE"⟩,
   ⟨0.55, 5, 6, "ENDURANCE"⟩]

/-- Embeds `DAILY_VOLUME_RATIOS` from linear.js. -/
def DAILY_VOLUME_FRACS : List ℚ := [0.20, 0.18, 0.15, 0.18, 0.17, 0.12]

/-- Rest parameters per zone (`REST_CONFIG[zone.type] || REST_CONFIG.MIXTE`). -/
def restConfigFor (zoneType : String) : ℚ × ℚ × ℚ × ℚ :=
  if zoneType = "ENDURANCE" then (50, 15, 8, 5)
  else if zoneType = "FORCE" then (75, 20, 10, 5)
  else (60, 20, 10, 5)

/-- Embeds `_getLastTestMax(history)`: last week with a positive numeric `testMax`, else 10. -/
def getLastTestMax (history : History) : ℚ :=
  match history.reverse.find? (fun w =>
      match w.testMax with | some v => decide (0 < v) | none => false) with
  | some w => match w.testMax with | some v => v | none => 10
  | none => 10

/-- Embeds `predictTestMax(weekNumber, history)` from linear.js: +10% per week since the
    last recorded week. -/
def predictTestMax (weekNumber : ℤ) (history : History) : ℚ :=
  if history = [] then 1
  else
    let lastTestMax := getLastTestMax history
    let lastRaw := (history.getLastD ⟨0, none, none, none, []⟩).weekNumber
    let lastWeekNumber := if lastRaw = 0 then 1 else lastRaw
    let weeksDelta := max 1 (weekNumber - lastWeekNumber)
    let predicted := lastTestMax * (1 + 0.10) ^ weeksDelta.toNat
    max 1 (jsRound predicted)

/-- Embeds `_calculateWeeklyVolume(weekNumber, testMax)`: `round(testMax·3·1.10^(N-1))`. -/
def calculateWeeklyVolume (weekNumber : ℤ) (testMax : ℚ) : ℚ :=
  jsRound (testMax * 3 * (1 + 0.10) ^ (weekNumber - 1))

/-- Embeds `_generateDayPlan(dayVolume, testMax, zone)` from linear.js. -/
def generateDayPlan (dayVolume testMax : ℚ) (zone : Zone) : DayPlan :=
  let maxReps : ℚ := ((⌈testMax * 1.2⌉ : ℤ) : ℚ)
  let reps0 := clamp (jsRound (testMax * zone.repsFrac)) 3 maxReps
  let series0 := if 0 < reps0 then jsRound (dayVolume / reps0) else zone.seriesLo
  let series1 := clamp series0 zone.seriesLo zone.seriesHi
  let actualVolume := series1 * reps0
  let reps1 :=
    if actualVolume < dayVolume * 0.8 ∧ reps0 < maxReps then
      clamp (jsRound (dayVolume / series1)) 3 maxReps
    else reps0
  let series2 := clamp series1 2 10
  let reps2 := clamp reps1 3 maxReps
  let cfg := restConfigFor zone.type
  let rest := clamp (calculateRest reps2 cfg.1 cfg.2.1 cfg.2.2.1 cfg.2.2.2) 20 180
  ⟨series2, reps2, rest, zone.type⟩

/-- The fixed `5 × 3 reps × 90 s` day of the beginner plan. -/
def beginnerDay : DayPlan := ⟨5, 3, 90, "DEBUTANT"⟩

/-- Embeds `_generateBeginnerPlan()` (identical in every strategy and in the engine). -/
def generateBeginnerPlan : Plan :=
  ⟨beginnerDay, beginnerDay, beginnerDay, beginnerDay, beginnerDay, beginnerDay⟩

/-- Fallback zone (never reached: the zone list has six entries). -/
def defaultZone : Zone := ⟨0.70, 4, 5, "MIXTE"⟩

/-- Embeds `generatePlan(weekNumber, testMax, history)` from linear.js. -/
def generatePlan (weekNumber : ℤ) (testMax : ℚ) (_history : History) : Plan :=
  if testMax < 5 then generateBeginnerPlan
  else
    let weeklyVolume := calculateWeeklyVolume weekNumber testMax
    let dailyVolumes := distributeVolume weeklyVolume DAILY_VOLUME_FRACS
    let day := fun i =>
      generateDayPlan (dailyVolumes.getD i 0) testMax (INTENSITY_ZONES.getD i defaultZone)
    ⟨day 0, day 1, day 2, day 3, day 4, day 5⟩

end LinearAlgorithm

/- ══════════════ algorithms/rir.js ══════════════ -/

namespace RIRAlgorithm

/-- One entry of `VOLUME_MULTIPLIERS`. -/
structure VolumeConfig where
  multiplier : ℚ
  label : String
  status : String
deriving Repr, DecidableEq

/-- Embeds `_getVolumeMultiplier(rirMoyen)`: first entry of `VOLUME_MULTIPLIERS` whose
    `minRIR` is satisfied (thresholds 3.5, 2.0, 1.0, −∞, all tested with `>=`). -/
def getVolumeMultiplier (rirMoyen : ℚ) : VolumeConfig :=
  if 3.5 ≤ rirMoyen then ⟨4.0, "Fort volume", "under"⟩
  else if 2.0 ≤ rirMoyen then ⟨3.5, "Volume optimal", "optimal"⟩
  else if 1.0 ≤ rirMoyen then ⟨3.0, "Volume modéré", "moderate"⟩
  else ⟨2.0, "Deload", "deload"⟩

/-- Embeds `_calculateRIRFromFeedbacks(summary)`: mean of the RIR values
    (facile→4, parfait→2, impossible→0 repeated by their counts), rounded to 1 decimal. -/
def calculateRIRFromFeedbacks (summary : FeedbackSummary) : ℚ :=
  let total : ℕ := summary.facile + summary.parfait + summary.impossible
  if total = 0 then 2
  else roundTo ((4 * summary.facile + 2 * summary.parfait + 0 * summary.impossible) / (total : ℚ)) 1

/-- Embeds `_getWeekRIR(week)`: pre-computed `rirMoyen` when present, else computed from
    the feedback counters, defaulting to the optimal RIR 2. -/
def getWeekRIR (week : Option WeekRecord) : ℚ :=
  match week with
  | none => 2
  | some w =>
    match w.feedbackSummary with
    | none => 2
    | some summary =>
      match summary.rirMoyen with
      | some v => v
      | none => calculateRIRFromFeedbacks summary

/-- Embeds `_getLastTestMax(history)` from rir.js (same scan as in linear.js). -/
def getLastTestMax (history : History) : ℚ :=
  LinearAlgorithm.getLastTestMax history

/-- Embeds `predictTestMax(weekNumber, history)` from rir.js. -/
def predictTestMax (_weekNumber : ℤ) (history : History) : ℚ :=
  if history = [] then 1
  else
    let lastMax := getLastTestMax history
    let rirMoyen := getWeekRIR history.getLast?
    let progressRate := 0.03 + rirMoyen * 0.015
    let clampedRate := clamp progressRate 0 0.12
    max 1 (jsRound (lastMax * (1 + clampedRate)))

/-- Embeds `DAILY_DISTRIBUTION` from rir.js. -/
def DAILY_DISTRIBUTION : List ℚ := [0.18, 0.17, 0.17, 0.17, 0.16, 0.15]

/-- Embeds `_calculateTargetReps(testMax, rirMoyen)`: `clamp(round(testMax·(0.6+RIR·0.05)), 3, ceil(testMax·1.2))`. -/
def calculateTargetReps (testMax rirMoyen : ℚ) : ℚ :=
  clamp (jsRound (testMax * (0.6 + rirMoyen * 0.05))) 3 ((⌈testMax * 1.2⌉ : ℤ) : ℚ)

/-- Embeds `_calculateRIRBasedRest(reps, status)` from rir.js. -/
def calculateRIRBasedRest (reps : ℚ) (status : String) : ℚ :=
  let baseRest : ℚ :=
    if status = "deload" then 90
    else if status = "under" then 45
    else if status = "moderate" then 70
    else 60
  clamp (jsRound (calculateRest reps baseRest 15 5 5)) 20 180

/-- Embeds `_generateDayPlan(dayVolume, repsCible, testMax, status)` from rir.js. -/
def generateDayPlan (dayVolume repsCible testMax : ℚ) (status : String) : DayPlan :=
  let series0 := if 0 < repsCible then jsRound (dayVolume / repsCible) else 3
  let series := clamp series0 2 10
  let reps := clamp repsCible 3 ((⌈testMax * 1.2⌉ : ℤ) : ℚ)
  let rest := calculateRIRBasedRest reps status
  let type := if status = "deload" then "DELOAD" else "STANDARD"
  ⟨series, reps, rest, type⟩

/-- Embeds `_getLastSessionFeedback(sessions)`: scan backwards for the last completed
    non-test session carrying a feedback. -/
def getLastSessionFeedback (sessions : List Session) : Option String :=
  match sessions.reverse.find? (fun s =>
      s.feedback.isSome && (s.status == "completed") && !(s.type == "test_max")) with
  | some s => s.feedback
  | none => none

/-- Embeds `INTER_SESSION_ADJUSTMENTS`: facile → ×1.10, parfait → ×1.05, others absent. -/
def interSessionMultiplier (feedback : String) : Option ℚ :=
  if feedback = "facile" then some 1.10
  else if feedback = "parfait" then some 1.05
  else none

/-- Embeds `_applyInterSessionAdjustments(plan, lastWeek, testMax)` from rir.js
    (reps of every day re-scaled by the last individual session's feedback). -/
def applyInterSessionAdjustments (plan : Plan) (lastWeek : Option WeekRecord)
    (testMax : ℚ) : Plan :=
  match lastWeek with
  | none => plan
  | some w =>
    match getLastSessionFeedback w.sessions with
    | none => plan
    | some fb =>
      match interSessionMultiplier fb with
      | none => plan
      | some m =>
        let maxReps : ℚ := ((⌈testMax * 1.2⌉ : ℤ) : ℚ)
        Plan.map (fun d => { d with reps := clamp (jsRound (d.reps * m)) 3 maxReps }) plan

/-- Embeds `generatePlan(weekNumber, testMax, history)` from rir.js. -/
def generatePlan (_weekNumber : ℤ) (testMax : ℚ) (history : History) : Plan :=
  if testMax < 5 then LinearAlgorithm.generateBeginnerPlan
  else
    let lastWeek := history.getLast?
    let rirMoyen := getWeekRIR lastWeek
    let volumeConfig := getVolumeMultiplier rirMoyen
    let volumeTotal := testMax * volumeConfig.multiplier
    let repsCible := calculateTargetReps testMax rirMoyen
    let day := fun i =>
      generateDayPlan (jsRound (volumeTotal * DAILY_DISTRIBUTION.getD i 0))
        repsCible testMax volumeConfig.status
    applyInterSessionAdjustments ⟨day 0, day 1, day 2, day 3, day 4, day 5⟩
      lastWeek testMax

end RIRAlgorithm

/- ══════════════ algorithms/scoring.js ══════════════ -/

namespace AlgorithmScorer

/-- One collected prediction `{predicted, actual, week}`. -/
structure PredRecord where
  predicted : ℚ
  actual : ℚ
  week : ℤ
deriving Repr, DecidableEq

/-- JS `x || y` on optional numbers: `0`, `null` and `undefined` are falsy. -/
def jsOrNum (x y : Option ℚ) : Option ℚ :=
  match x with
  | some v => if v = 0 then y else some v
  | none => y

/-- Embeds `_collectPredictions(scoringHistory, algoName)` from scoring.js. -/
def collectPredictions (scoringHistory : ScoringHistory) (algoName : String) :
    List PredRecord :=
  scoringHistory.filterMap (fun entry =>
    match entry.calculations.find? (fun c => c.1 == algoName) with
    | none => none
    | some c =>
      match c.2.prediction, jsOrNum entry.actual c.2.actual with
      | some p, some a => if 0 < a then some ⟨p, a, entry.weekNumber⟩ else none
      | _, _ => none)

/-- Embeds `_getCurrentWeekFromHistory(scoringHistory)`: largest week number, at least 1. -/
def getCurrentWeekFromHistory (scoringHistory : ScoringHistory) : ℤ :=
  scoringHistory.foldl (fun m e => if m < e.weekNumber then e.weekNumber else m) 1

/-- Embeds `_getCurrentPrediction(scoringHistory, algoName, currentWeek)` from scoring.js. -/
def getCurrentPrediction (scoringHistory : ScoringHistory) (algoName : String)
    (currentWeek : ℤ) : Option ℚ :=
  match scoringHistory.find? (fun e => e.weekNumber == currentWeek) with
  | none => none
  | some entry =>
    match entry.predictions.find? (fun p => p.1 == algoName) with
    | some (_, some v) => some v
    | _ =>
      match entry.calculations.find? (fun c => c.1 == algoName) with
      | some c =>
        match c.2.prediction with
        | some v => some v
        | none => none
      | none => none

/-- Embeds `_singlePrecisionScore(predicted, actual)`: `clamp(round(100 − |Δ|/actual·200, 1), 0, 100)`. -/
def singlePrecisionScore (predicted actual : ℚ) : ℚ :=
  if actual ≤ 0 then 50
  else clamp (roundTo (100 - |predicted - actual| / actual * 200) 1) 0 100

/-- Embeds `calculatePrecisionScore(scoringHistory, algoName, actualTestMax)` from scoring.js. -/
def calculatePrecisionScore (scoringHistory : ScoringHistory) (algoName : String)
    (actualTestMax : ℚ) : ℚ :=
  let past := collectPredictions scoringHistory algoName
  let preds :=
    if 0 < actualTestMax then
      let currentWeek := getCurrentWeekFromHistory scoringHistory
      match getCurrentPrediction scoringHistory algoName currentWeek with
      | some cp => past ++ [⟨cp, actualTestMax, currentWeek⟩]
      | none => past
    else past
  if preds = [] then 50
  else
    let currentWeek := (preds.getLastD ⟨0, 0, 0⟩).week
    let weightedScore := jsSum (preds.map (fun p =>
      singlePrecisionScore p.predicted p.actual * exponentialWeight currentWeek p.week))
    let totalWeight := jsSum (preds.map (fun p => exponentialWeight currentWeek p.week))
    if 0 < totalWeight then clamp (roundTo (weightedScore / totalWeight) 1) 0 100
    else 50

/-- Embeds `_singleFeedbackScore(feedbackSummary)`: `clamp(round(parfait% − impossible%·1.5, 1), 0, 100)`,
    `null` when there is no data. -/
def singleFeedbackScore (summary : Option FeedbackSummary) : Option ℚ :=
  match summary with
  | none => none
  | some s =>
    let total : ℕ := s.facile + s.parfait + s.impossible
    if total = 0 then none
    else some (clamp
      (roundTo ((s.parfait : ℚ) / total * 100 - (s.impossible : ℚ) / total * 150) 1) 0 100)

/-- Embeds `calculateFeedbackScore(history, algoName)` from scoring.js. -/
def calculateFeedbackScore (history : History) (algoName : String) : ℚ :=
  let relevantWeeks := history.filter (fun w => w.selectedAlgorithm == some algoName)
  if relevantWeeks = [] then 50
  else
    let scored := relevantWeeks.filterMap (fun w => singleFeedbackScore w.feedbackSummary)
    if scored = [] then 50
    else clamp (roundTo (jsSum scored / scored.length) 1) 0 100

/-- Embeds `_extractRecentTestMaxes(history, count)`: the last `count` positive test maxes,
    in chronological order. -/
def extractRecentTestMaxes (history : History) (count : ℕ) : List ℚ :=
  ((history.reverse.filterMap (fun w =>
      match w.testMax with
      | some v => if 0 < v then some v else none
      | none => none)).take count).reverse

/-- Embeds `_scoreTrendIncreasing(maxes)`: `clamp(round(80 + growth·200, 1), 80, 100)`. -/
def scoreTrendIncreasing (maxes : List ℚ) : ℚ :=
  let first := maxes.headD 0
  let last := maxes.getLastD 0
  if first ≤ 0 then 80
  else clamp (roundTo (80 + (last - first) / first / maxes.length * 200) 1) 80 100

/-- Embeds `_scoreTrendDecreasing(maxes)`: `clamp(round(20 − decline·100, 1), 0, 20)`. -/
def scoreTrendDecreasing (maxes : List ℚ) : ℚ :=
  let first := maxes.headD 0
  let last := maxes.getLastD 0
  if first ≤ 0 then 20
  else clamp (roundTo (20 - (first - last) / first / maxes.length * 100) 1) 0 20

/-- Embeds `calculateTrendScore(history)` from scoring.js. -/
def calculateTrendScore (history : History) : ℚ :=
  if history.length < 2 then 50
  else
    let recentMaxes := extractRecentTestMaxes history 3
    if recentMaxes.length < 2 then 50
    else
      let trend := detectTrend recentMaxes
      if trend = "increasing" then scoreTrendIncreasing recentMaxes
      else if trend = "stagnant" then 40
      else if trend = "decreasing" then scoreTrendDecreasing recentMaxes
      else 50

/-- Embeds `calculateCompositeScore(precision, feedback, trend)`:
    `clamp(round(0.5·p + 0.3·f + 0.2·t, 1), 0, 100)`. -/
def calculateCompositeScore (precision feedback trend : ℚ) : ℚ :=
  clamp (roundTo (0.50 * precision + 0.30 * feedback + 0.20 * trend) 1) 0 100

/-- The per-algorithm score record produced by `scoreAllAlgorithms`. -/
structure Score where
  prediction : Option ℚ
  scorePrecision : ℚ
  scoreFeedback : ℚ
  scoreTendance : ℚ
  composite : ℚ
deriving Repr, DecidableEq

/-- Embeds `scoreAllAlgorithms(weekHistory, scoringHistory, predictions, actualTestMax, eligibleAlgorithms)`
    from scoring.js: one score record per eligible algorithm, in eligibility order. -/
def scoreAllAlgorithms (weekHistory : History) (scoringHistory : ScoringHistory)
    (predictions : Predictions) (actualTestMax : ℚ)
    (eligibleAlgorithms : List String) : List (String × Score) :=
  let trendScore := calculateTrendScore weekHistory
  eligibleAlgorithms.map (fun algoName =>
    let prediction :=
      match predictions.find? (fun p => p.1 == algoName) with
      | some (_, v) => v
      | none => none
    let precisionScore := calculatePrecisionScore scoringHistory algoName actualTestMax
    let feedbackScore := calculateFeedbackScore weekHistory algoName
    let compositeScore := calculateCompositeScore precisionScore feedbackScore trendScore
    (algoName, ⟨prediction, precisionScore, feedbackScore, trendScore, compositeScore⟩))

/-- The comparator of `selectBestAlgorithm`'s stable sort
    (`(a, b) => b.composite − a.composite`, descending). -/
def cmpComposite (x y : String × Score) : Bool :=
  decide (y.2.composite ≤ x.2.composite)

/-- Embeds `_generateReason(bestName, bestScores, sorted)` from scoring.js. -/
def generateReason (bestScores : Score) (restSorted : List (String × Score)) : String :=
  let part1 := "Score composite : " ++ toString bestScores.composite ++ "/100"
  let redStep := fun (a b : String × ℚ) => if b.2 < a.2 then a else b
  let bestCriterion :=
    redStep (redStep ("précision", bestScores.scorePrecision)
      ("feedback", bestScores.scoreFeedback)) ("tendance", bestScores.scoreTendance)
  let part2 := "Meilleur en " ++ bestCriterion.1 ++ " (" ++ toString bestCriterion.2 ++ "/100)"
  let gapParts :=
    match restSorted with
    | [] => []
    | (_, secondScores) :: _ =>
      let gap := roundTo (bestScores.composite - secondScores.composite) 1
      if 10 < gap then ["Avance nette (+" ++ toString gap ++ " pts)"]
      else if 3 < gap then ["Légère avance (+" ++ toString gap ++ " pts)"]
      else ["Avance serrée (+" ++ toString gap ++ " pts)"]
  let predParts :=
    match bestScores.prediction with
    | some p => ["Prédiction : " ++ toString p ++ " reps"]
    | none => []
  String.intercalate ". " ([part1, part2] ++ gapParts ++ predParts) ++ "."

/-- The result of `selectBestAlgorithm`. -/
structure BestChoice where
  name : String
  score : ℚ
  reason : String
deriving Repr, DecidableEq

/-- Embeds `selectBestAlgorithm(scores)` from scoring.js: stable sort by descending
    composite, return the head (empty scores fall back to linear / neutral 50,
    exactly as the early return in the source). -/
def selectBestAlgorithm (scores : List (String × Score)) : BestChoice :=
  match scores.mergeSort cmpComposite with
  | [] => ⟨"linear", 50, "Aucun score disponible. Algorithme linéaire par défaut."⟩
  | (bestName, bestScores) :: restSorted =>
    ⟨bestName, bestScores.composite, generateReason bestScores restSorted⟩

/-- The result of `assessReliability`. -/
structure Reliability where
  reliable : Bool
  reason : String
  dataPoints : ℕ
deriving Repr, DecidableEq

/-- Embeds `assessReliability(scoringHistory, eligibleAlgorithms)` from scoring.js. -/
def assessReliability (scoringHistory : ScoringHistory)
    (eligibleAlgorithms : List String) : Reliability :=
  let dataPoints := scoringHistory.length
  if dataPoints = 0 then
    ⟨false, "Aucune donnée de scoring. Première semaine.", 0⟩
  else if dataPoints < 2 then
    ⟨false, "Seulement 1 semaine de données. Scoring peu fiable.", dataPoints⟩
  else if eligibleAlgorithms.length < 3 then
    ⟨false, "Seulement " ++ toString eligibleAlgorithms.length ++
      " algorithmes éligibles. Comparaison limitée.", dataPoints⟩
  else if 4 ≤ dataPoints then
    ⟨true, "Suffisamment de données pour un scoring fiable.", dataPoints⟩
  else
    ⟨false, toString dataPoints ++ " semaines de données. Scoring en amélioration.",
      dataPoints⟩

end AlgorithmScorer

/- ══════════════ algorithms/engine.js ══════════════ -/

/-- A registered strategy: the interface `getName` / `getLabel` / `predictTestMax` /
    `generatePlan` validated by the engine. Methods return `Except` to model
    JavaScript exceptions. -/
structure Algorithm where
  name : String
  label : String
  predictTestMax : ℤ → History → Except String ℚ
  generatePlan : ℤ → ℚ → History → Except String Plan

/-- The five strategies are registered in a `Map`; `_algorithms.get(name)` is the
    first registered algorithm with that name. -/
def findAlgorithm (algos : List Algorithm) (name : String) : Option Algorithm :=
  algos.find? (fun a => a.name == name)

namespace AlgorithmEngine

/-- Embeds `getEligibleAlgorithms(weekNumber)` from engine.js, iterating `ELIGIBILITY_MAP`
    (maxWeek 1, 2, 3, ∞). -/
def getEligibleAlgorithms (weekNumber : ℤ) : List String :=
  if weekNumber ≤ 1 then ["linear"]
  else if weekNumber ≤ 2 then ["linear", "rir"]
  else if weekNumber ≤ 3 then ["linear", "dup", "rir"]
  else ["linear", "banister", "dup", "rir", "regression"]

/-- Loop body of `getAllPredictions`: the entry recorded for one eligible name
    (`continue` for unregistered names, `null` when the strategy throws,
    `Math.max(1, round(predicted))` otherwise). -/
def predictionEntry (algos : List Algorithm) (weekNumber : ℤ) (history : History)
    (name : String) : Option (String × Option ℚ) :=
  match findAlgorithm algos name with
  | none => none
  | some algo =>
    match algo.predictTestMax weekNumber history with
    | .ok predicted => some (name, some (max 1 (jsRound predicted)))
    | .error _ => some (name, none)

/-- Embeds `getAllPredictions(weekNumber, history)` from engine.js. -/
def getAllPredictions (algos : List Algorithm) (weekNumber : ℤ) (history : History) :
    Predictions :=
  (getEligibleAlgorithms weekNumber).filterMap (predictionEntry algos weekNumber history)

/-- The result of the engine-level `selectBestAlgorithm`. -/
structure Selection where
  algorithm : String
  scores : Option (List (String × AlgorithmScorer.Score))
  predictions : Option Predictions
  reason : String
  reliability : AlgorithmScorer.Reliability
deriving Repr, DecidableEq

/-- Embeds `selectBestAlgorithm(weekNumber, testMax, weekHistory, scoringHistory)` from
    engine.js (week ≤ 1 or empty history short-circuits to linear). -/
def selectBestAlgorithm (algos : List Algorithm) (weekNumber : ℤ) (testMax : ℚ)
    (weekHistory : History) (scoringHistory : ScoringHistory) : Selection :=
  if weekNumber ≤ 1 ∨ weekHistory = [] then
    { algorithm := "linear", scores := none, predictions := none,
      reason := "Première semaine — algorithme linéaire par défaut.",
      reliability := ⟨false, "Première semaine.", 0⟩ }
  else
    let eligible := getEligibleAlgorithms weekNumber
    let predictions := getAllPredictions algos weekNumber weekHistory
    let scores := AlgorithmScorer.scoreAllAlgorithms weekHistory scoringHistory
      predictions testMax eligible
    let best := AlgorithmScorer.selectBestAlgorithm scores
    let reliability := AlgorithmScorer.assessReliability scoringHistory eligible
    { algorithm := best.name, scores := some scores, predictions := some predictions,
      reason := best.reason, reliability := reliability }

/-- Embeds `_generateRawPlan(algorithmName, weekNumber, testMax, history)` from engine.js:
    unknown name or a throwing strategy falls back to the registered linear
    strategy; a missing linear registration is a crash (`.error`). -/
def generateRawPlan (algos : List Algorithm) (algorithmName : String) (weekNumber : ℤ)
    (testMax : ℚ) (history : History) : Except String Plan :=
  match findAlgorithm algos algorithmName with
  | none =>
    match findAlgorithm algos "linear" with
    | some lin => lin.generatePlan weekNumber testMax history
    | none => .error "TypeError: linear algorithm not registered"
  | some algo =>
    match algo.generatePlan weekNumber testMax history with
    | .ok plan => .ok plan
    | .error _ =>
      match findAlgorithm algos "linear" with
      | some lin => lin.generatePlan weekNumber testMax history
      | none => .error "TypeError: linear algorithm not registered"

/-- Embeds `_applyImpossibleRule(plan)` from engine.js: for every day
    `series × 2`, `reps = ceil(reps / 2)`, `rest = max(30, rest − 15)`. -/
def applyImpossibleRule (plan : Plan) : Plan :=
  Plan.map (fun d =>
    { d with
      series := d.series * 2
      reps := ((⌈d.reps / 2⌉ : ℤ) : ℚ)
      rest := max 30 (d.rest - 15) }) plan

/-- Embeds `_applySafetyBounds(plan, testMax)` from engine.js: for every day
    `reps ∈ [3, ceil(testMax·1.2)]`, `series ∈ [2, 10]`, `rest (rounded) ∈ [20, 180]`. -/
def applySafetyBounds (plan : Plan) (testMax : ℚ) : Plan :=
  let maxReps : ℚ := ((⌈testMax * 1.2⌉ : ℤ) : ℚ)
  Plan.map (fun d =>
    { d with
      reps := clamp d.reps 3 maxReps
      series := clamp d.series 2 10
      rest := clamp (jsRound d.rest) 20 180 }) plan

/-- Embeds `_generateBeginnerPlan()` from engine.js: six copies of `BEGINNER_PLAN`
    (5 series × 3 reps × 90 s, type DEBUTANT). -/
def generateBeginnerPlan : Plan :=
  ⟨⟨5, 3, 90, "DEBUTANT"⟩, ⟨5, 3, 90, "DEBUTANT"⟩, ⟨5, 3, 90, "DEBUTANT"⟩,
   ⟨5, 3, 90, "DEBUTANT"⟩, ⟨5, 3, 90, "DEBUTANT"⟩, ⟨5, 3, 90, "DEBUTANT"⟩⟩

/-- Embeds `generateWeekPlan(algorithmName, weekNumber, testMax, history, hasImpossible)`
    from engine.js: beginner guard, raw plan, Impossible rule, safety bounds. -/
def generateWeekPlan (algos : List Algorithm) (algorithmName : String) (weekNumber : ℤ)
    (testMax : ℚ) (history : History) (hasImpossible : Bool) : Except String Plan :=
  if testMax < 5 then .ok generateBeginnerPlan
  else
    match generateRawPlan algos algorithmName weekNumber testMax history with
    | .error e => .error e
    | .ok rawPlan =>
      let adjusted := if hasImpossible then applyImpossibleRule rawPlan else rawPlan
      .ok (applySafetyBounds adjusted testMax)

/-- The composed result of `processNewWeek`. -/
structure EngineResult where
  algorithm : String
  algorithmLabel : String
  scores : Option (List (String × AlgorithmScorer.Score))
  predictions : Option Predictions
  plan : Plan
  reason : String
  reliability : AlgorithmScorer.Reliability
  isBeginnerMode : Bool
deriving Repr, DecidableEq

/-- Embeds `processNewWeek(weekNumber, testMax, weekHistory, scoringHistory, hasImpossibleLastWeek)`
    from engine.js, the single public entry point. -/
def processNewWeek (algos : List Algorithm) (weekNumber : ℤ) (testMax : ℚ)
    (weekHistory : History) (scoringHistory : ScoringHistory)
    (hasImpossibleLastWeek : Bool) : Except String EngineResult :=
  if testMax < 5 then
    match findAlgorithm algos "linear" with
    | none => .error "TypeError: linear algorithm not registered"
    | some lin =>
      .ok { algorithm := "linear", algorithmLabel := lin.label,
            scores := none, predictions := none,
            plan := generateBeginnerPlan,
            reason := "Mode grand débutant activé (test max < 5 reps). Plan fixe.",
            reliability := ⟨false, "Mode débutant.", 0⟩,
            isBeginnerMode := true }
  else
    let selection := selectBestAlgorithm algos weekNumber testMax weekHistory scoringHistory
    match generateWeekPlan algos selection.algorithm weekNumber testMax weekHistory
        hasImpossibleLastWeek with
    | .error e => .error e
    | .ok plan =>
      let algorithmLabel :=
        match findAlgorithm algos selection.algorithm with
        | some algo => algo.label
        | none => selection.algorithm
      .ok { algorithm := selection.algorithm, algorithmLabel := algorithmLabel,
            scores := selection.scores, predictions := selection.predictions,
            plan := plan, reason := selection.reason,
            reliability := selection.reliability, isBeginnerMode := false }

end AlgorithmEngine

/-- The linear strategy as a registered `Algorithm` (total, never throws). -/
def linearAlgorithm : Algorithm :=
  { name := "linear", label := "Progression Linéaire",
    predictTestMax := fun w h => .ok (LinearAlgorithm.predictTestMax w h),
    generatePlan := fun w tm h => .ok (LinearAlgorithm.generatePlan w tm h) }

/-- The RIR strategy as a registered `Algorithm` (total, never throws). -/
def rirAlgorithm : Algorithm :=
  { name := "rir", label := "Autorégulation (RIR)",
    predictTestMax := fun w h => .ok (RIRAlgorithm.predictTestMax w h),
    generatePlan := fun w tm h => .ok (RIRAlgorithm.generatePlan w tm h) }

/- ══════════════ helper lemmas ══════════════ -/

/-- The fold `jsSum` agrees with `List.sum`. -/
theorem jsSum_eq_sum (l : List ℚ) : jsSum l = l.sum := by
  have key : ∀ (l : List ℚ) (a : ℚ), l.foldl (· + ·) a = a + l.sum := by
    intro l
    induction l with
    | nil => simp
    | cons x xs ih => intro a; simp [List.foldl_cons, ih, List.sum_cons]; ring
  simpa [jsSum] using key l 0

theorem addAt_length (l : List ℚ) (i : ℕ) (d : ℚ) : (addAt l i d).length = l.length := by
  induction l generalizing i with
  | nil => simp [addAt]
  | cons x xs ih =>
    cases i with
    | zero => simp [addAt]
    | succ n => simp [addAt, ih]

theorem addAt_sum (l : List ℚ) (i : ℕ) (d : ℚ) (h : i < l.length) :
    (addAt l i d).sum = l.sum + d := by
  induction l generalizing i with
  | nil => simp at h
  | cons x xs ih =>
    cases i with
    | zero => simp [addAt]; ring
    | succ n =>
      simp only [addAt, List.sum_cons]
      rw [ih n (by simpa using h)]
      ring

theorem foldl_max_mem (l : List ℚ) (x : ℚ) : l.foldl max x = x ∨ l.foldl max x ∈ l := by
  induction l generalizing x with
  | nil => simp
  | cons a t ih =>
    rcases ih (max x a) with h | h
    · rcases max_choice x a with hx | hx
      · left; rw [List.foldl_cons, h, hx]
      · right; rw [List.foldl_cons, h, hx]; exact List.mem_cons_self a t
    · right; rw [List.foldl_cons]; exact List.mem_cons_of_mem a h

theorem jsListMax_mem {l : List ℚ} (h : l ≠ []) : jsListMax l ∈ l := by
  match l, h with
  | a :: t, _ =>
    rcases foldl_max_mem (a :: t) ((a :: t).headD 0) with h' | h'
    · rw [jsListMax, h']; simp
    · rw [jsListMax]; exact h'

theorem le_clamp (x lo hi : ℚ) : lo ≤ clamp x lo hi := le_max_left _ _

theorem clamp_le (x lo hi : ℚ) (h : lo ≤ hi) : clamp x lo hi ≤ hi :=
  max_le h (min_le_left _ _)

/-- Bound `ceil(testMax · 1.2) ≥ 3` once `testMax ≥ 2`. -/
theorem three_le_ceilMul {tm : ℚ} (h : 2 ≤ tm) : (3 : ℚ) ≤ ((⌈tm * 1.2⌉ : ℤ) : ℚ) := by
  have h1 : (12/5 : ℚ) ≤ tm * 1.2 := by nlinarith
  have h2 : (3 : ℤ) ≤ ⌈tm * 1.2⌉ := by
    have hm := Int.ceil_le_ceil h1
    have h3 : (⌈(12/5 : ℚ)⌉ : ℤ) = 3 := by rw [Int.ceil_eq_iff] <;> norm_num
    omega
  exact_mod_cast h2

/-- Bound `ceil(testMax · 1.2) ≥ 6` once `testMax ≥ 5`. -/
theorem six_le_ceilMul {tm : ℚ} (h : 5 ≤ tm) : (6 : ℚ) ≤ ((⌈tm * 1.2⌉ : ℤ) : ℚ) := by
  have h1 : (6 : ℚ) ≤ tm * 1.2 := by nlinarith
  have h2 : (6 : ℤ) ≤ ⌈tm * 1.2⌉ := by
    have hm := Int.ceil_le_ceil h1
    have h3 : (⌈(6 : ℚ)⌉ : ℤ) = 6 := by
      rw [show ((6 : ℚ)) = ((6 : ℤ) : ℚ) by norm_num, Int.ceil_intCast]
    omega
  exact_mod_cast h2

theorem Plan.days_map (f : DayPlan → DayPlan) (p : Plan) :
    (Plan.map f p).days = p.days.map f := rfl

/-- The safety bounds of the specification, per day. -/
abbrev DayInBounds (d : DayPlan) (tm : ℚ) : Prop :=
  3 ≤ d.reps ∧ d.reps ≤ ((⌈tm * 1.2⌉ : ℤ) : ℚ) ∧
  2 ≤ d.series ∧ d.series ≤ 10 ∧ 20 ≤ d.rest ∧ d.rest ≤ 180

/-- The safety bounds of the specification, for all six days of a plan. -/
abbrev PlanInBounds (p : Plan) (tm : ℚ) : Prop :=
  ∀ d ∈ p.days, DayInBounds d tm

theorem beginnerPlan_inBounds {tm : ℚ} (h : 2 ≤ tm) :
    PlanInBounds AlgorithmEngine.generateBeginnerPlan tm := by
  intro d hd
  have h3 := three_le_ceilMul h
  have hd' : d = ⟨5, 3, 90, "DEBUTANT"⟩ := by
    simpa [AlgorithmEngine.generateBeginnerPlan, Plan.days] using hd
  subst hd'
  exact ⟨by norm_num, h3, by norm_num, by norm_num, by norm_num, by norm_num⟩

theorem applySafetyBounds_inBounds {tm : ℚ} (h : 5 ≤ tm) (p : Plan) :
    PlanInBounds (AlgorithmEngine.applySafetyBounds p tm) tm := by
  intro d hd
  have h6 := six_le_ceilMul h
  have h3 : (3 : ℚ) ≤ ((⌈tm * 1.2⌉ : ℤ) : ℚ) := by linarith
  rw [AlgorithmEngine.applySafetyBounds, Plan.days_map, List.mem_map] at hd
  obtain ⟨d0, _, rfl⟩ := hd
  refine ⟨le_clamp _ _ _, clamp_le _ _ _ h3, le_clamp _ _ _, clamp_le _ _ _ (by norm_num),
    le_clamp _ _ _, clamp_le _ _ _ (by norm_num)⟩

theorem generateWeekPlan_inBounds {algos : List Algorithm} {name : String} {w : ℤ}
    {tm : ℚ} {h : History} {imp : Bool} {p : Plan} (htm : 2 ≤ tm)
    (hp : AlgorithmEngine.generateWeekPlan algos name w tm h imp = .ok p) :
    PlanInBounds p tm := by
  rw [AlgorithmEngine.generateWeekPlan] at hp
  by_cases h5 : tm < 5
  · rw [if_pos h5] at hp
    cases hp
    exact beginnerPlan_inBounds htm
  · rw [if_neg h5] at hp
    cases hraw : AlgorithmEngine.generateRawPlan algos name w tm h with
    | error e => rw [hraw] at hp; cases hp
    | ok rawPlan =>
      rw [hraw] at hp
      cases hp
      exact applySafetyBounds_inBounds (by linarith [not_lt.mp h5]) _

/- ══════════════ claims ══════════════ -/

/-- C4: `getEligibleAlgorithms` returns exactly `["linear"]` for week ≤ 1,
    `["linear","rir"]` for week 2, `["linear","dup","rir"]` for week 3, and all
    five strategies in declared order for week ≥ 4. -/
theorem C4_eligibility_gate (w : ℤ) :
    (w ≤ 1 → AlgorithmEngine.getEligibleAlgorithms w = ["linear"]) ∧
    (w = 2 → AlgorithmEngine.getEligibleAlgorithms w = ["linear", "rir"]) ∧
    (w = 3 → AlgorithmEngine.getEligibleAlgorithms w = ["linear", "dup", "rir"]) ∧
    (4 ≤ w → AlgorithmEngine.getEligibleAlgorithms w
      = ["linear", "banister", "dup", "rir", "regression"]) := by
  refine ⟨fun h => ?_, fun h => ?_, fun h => ?_, fun h => ?_⟩
  · rw [AlgorithmEngine.getEligibleAlgorithms, if_pos h]
  · subst h; rfl
  · subst h; rfl
  · rw [AlgorithmEngine.getEligibleAlgorithms,
      if_neg (by omega), if_neg (by omega), if_neg (by omega)]

/-- Witness for C4 at weeks 1, 2, 3 and 10. -/
theorem C4_eligibility_gate_witness :
    AlgorithmEngine.getEligibleAlgorithms 1 = ["linear"] ∧
    AlgorithmEngine.getEligibleAlgorithms 2 = ["linear", "rir"] ∧
    AlgorithmEngine.getEligibleAlgorithms 3 = ["linear", "dup", "rir"] ∧
    AlgorithmEngine.getEligibleAlgorithms 10
      = ["linear", "banister", "dup", "rir", "regression"] :=
  ⟨(C4_eligibility_gate 1).1 (by norm_num),
   (C4_eligibility_gate 2).2.1 rfl,
   (C4_eligibility_gate 3).2.2.1 rfl,
   (C4_eligibility_gate 10).2.2.2 (by norm_num)⟩

/-- C7: for every `totalVolume` and every non-empty ratio list with positive sum,
    `distributeVolume` preserves the length and its result sums exactly to
    `round(totalVolume)`. -/
theorem C7_distributeVolume_exact (totalVolume : ℚ) (ratios : List ℚ)
    (hne : ratios ≠ []) (hpos : 0 < jsSum ratios) :
    (distributeVolume totalVolume ratios).length = ratios.length ∧
    jsSum (distributeVolume totalVolume ratios) = jsRound totalVolume := by
  rw [distributeVolume, if_neg hne, if_neg (by exact ne_of_gt hpos)]
  set distributed := (ratios.map (· / jsSum ratios)).map
    (fun r => jsRound (totalVolume * r)) with hdist
  have hlen : distributed.length = ratios.length := by simp [hdist]
  have hdne : distributed ≠ [] := by
    intro h0
    apply hne
    apply List.length_eq_zero.mp
    rw [← hlen, h0]
    rfl
  by_cases hdiff : jsRound totalVolume - jsSum distributed ≠ 0 ∧ 0 < distributed.length
  · rw [if_pos hdiff]
    have hidx : distributed.indexOf (jsListMax distributed) < distributed.length :=
      List.indexOf_lt_length.mpr (jsListMax_mem hdne)
    constructor
    · rw [addAt_length, hlen]
    · rw [jsSum_eq_sum, addAt_sum _ _ _ hidx, ← jsSum_eq_sum]
      ring
  · rw [if_neg hdiff]
    refine ⟨hlen, ?_⟩
    rcases Decidable.not_and_iff_or_not.mp hdiff with h | h
    · have : jsRound totalVolume - jsSum distributed = 0 := not_ne_iff.mp h
      linarith
    · exact absurd (by simpa [hlen] using List.length_pos.mpr hne) h

/-- Witness for C7: `distributeVolume(100, [1,1,1])` has three entries and sums
    exactly to 100. -/
theorem C7_distributeVolume_exact_witness :
    (distributeVolume 100 [1, 1, 1]).length = 3 ∧
    jsSum (distributeVolume 100 [1, 1, 1]) = 100 := by
  have h := C7_distributeVolume_exact 100 [1, 1, 1] (by simp) (by norm_num [jsSum])
  refine ⟨h.1, ?_⟩
  rw [h.2, jsRound]
  have h100 : (⌊(100 : ℚ) + 1/2⌋ : ℤ) = 100 := by rw [Int.floor_eq_iff] <;> norm_num
  rw [h100]
  norm_num

/-- C1 counterexample: at `weekNumber = 1`, `testMax = 1`, empty history, the
    beginner path of `processNewWeek` returns a plan whose day-2 reps are 3,
    while `ceil(testMax × 1.2) = 2 < 3` — so the claimed bound
    `reps ∈ [3, ceil(testMax × 1.2)]` fails for `testMax = 1`. -/
theorem C1_counterexample :
    (AlgorithmEngine.processNewWeek [linearAlgorithm] 1 1 [] [] false).toOption.map
      (fun r => r.plan.day2.reps) = some 3 ∧
    ((⌈(1 : ℚ) * 1.2⌉ : ℤ) : ℚ) < 3 := by
  constructor
  · rw [AlgorithmEngine.processNewWeek, if_pos (by norm_num : (1 : ℚ) < 5)]
    rfl
  · have hc : (⌈(1 : ℚ) * 1.2⌉ : ℤ) = 2 := by
      rw [show (1 : ℚ) * 1.2 = 12/10 by norm_num, Int.ceil_eq_iff] <;> norm_num
    rw [hc]
    norm_num

/-- C1 (amended): every plan returned by `processNewWeek`, on every path including
    beginner mode and the Impossible-rule path, satisfies for each of its 6 days
    `reps ∈ [3, ceil(testMax × 1.2)]`, `sets ∈ [2, 10]` and `rest ∈ [20, 180]`,
    for every weekNumber, every `testMax ≥ 2` (the claim's `testMax ≥ 1` fails at
    `testMax = 1`, where the unclamped beginner plan has `reps = 3 > ceil(1.2) = 2`),
    and every history. -/
theorem C1_safety_clamp (algos : List Algorithm) (w : ℤ) (tm : ℚ) (h : History)
    (sh : ScoringHistory) (imp : Bool) (r : AlgorithmEngine.EngineResult)
    (htm : 2 ≤ tm)
    (hr : AlgorithmEngine.processNewWeek algos w tm h sh imp = .ok r) :
    PlanInBounds r.plan tm := by
  simp only [AlgorithmEngine.processNewWeek] at hr
  by_cases h5 : tm < 5
  · rw [if_pos h5] at hr
    cases hfind : findAlgorithm algos "linear" with
    | none => rw [hfind] at hr; cases hr
    | some lin =>
      rw [hfind] at hr
      injection hr with hr
      subst hr
      exact beginnerPlan_inBounds htm
  · rw [if_neg h5] at hr
    cases hgen : AlgorithmEngine.generateWeekPlan algos
        (AlgorithmEngine.selectBestAlgorithm algos w tm h sh).algorithm w tm h imp with
    | error e => rw [hgen] at hr; cases hr
    | ok plan =>
      rw [hgen] at hr
      injection hr with hr
      subst hr
      exact generateWeekPlan_inBounds htm hgen

/-- The concrete result returned on the beginner path, used to witness C1. -/
def c1Result : AlgorithmEngine.EngineResult :=
  { algorithm := "linear", algorithmLabel := linearAlgorithm.label, scores := none,
    predictions := none, plan := AlgorithmEngine.generateBeginnerPlan,
    reason := "Mode grand débutant activé (test max < 5 reps). Plan fixe.",
    reliability := ⟨false, "Mode débutant.", 0⟩, isBeginnerMode := true }

/-- Witness for C1 (amended) at `weekNumber = 1`, `testMax = 2`, empty history. -/
theorem C1_safety_clamp_witness : PlanInBounds c1Result.plan 2 :=
  C1_safety_clamp [linearAlgorithm] 1 2 [] [] false c1Result (by norm_num) (by
    rw [AlgorithmEngine.processNewWeek, if_pos (by norm_num : (2 : ℚ) < 5)]
    rfl)

/-- C2: for every `testMax ∈ {1, 2, 3, 4}` and every weekNumber, history,
    scoringHistory and impossible flag, `processNewWeek` returns
    `algorithm = "linear"`, `isBeginnerMode = true`, `scores = null`,
    `predictions = null`, and the fixed plan whose six days are all
    5 sets × 3 reps × 90 s rest, bypassing strategy selection entirely. -/
theorem C2_beginner_override (algos : List Algorithm) (w : ℤ) (h : History)
    (sh : ScoringHistory) (imp : Bool) (tm : ℚ) (lin : Algorithm)
    (hlin : findAlgorithm algos "linear" = some lin)
    (htm : tm = 1 ∨ tm = 2 ∨ tm = 3 ∨ tm = 4) :
    AlgorithmEngine.processNewWeek algos w tm h sh imp = .ok
      { algorithm := "linear", algorithmLabel := lin.label, scores := none,
        predictions := none, plan := AlgorithmEngine.generateBeginnerPlan,
        reason := "Mode grand débutant activé (test max < 5 reps). Plan fixe.",
        reliability := ⟨false, "Mode débutant.", 0⟩, isBeginnerMode := true } ∧
    AlgorithmEngine.generateBeginnerPlan =
      ⟨⟨5, 3, 90, "DEBUTANT"⟩, ⟨5, 3, 90, "DEBUTANT"⟩, ⟨5, 3, 90, "DEBUTANT"⟩,
       ⟨5, 3, 90, "DEBUTANT"⟩, ⟨5, 3, 90, "DEBUTANT"⟩, ⟨5, 3, 90, "DEBUTANT"⟩⟩ := by
  have h5 : tm < 5 := by rcases htm with rfl | rfl | rfl | rfl <;> norm_num
  constructor
  · rw [AlgorithmEngine.processNewWeek, if_pos h5, hlin]
  · rfl

/-- Witness for C2 at `testMax = 3`, week 7, impossible flag set. -/
theorem C2_beginner_override_witness :
    AlgorithmEngine.processNewWeek [linearAlgorithm] 7 3 [] [] true = .ok
      { algorithm := "linear", algorithmLabel := linearAlgorithm.label, scores := none,
        predictions := none, plan := AlgorithmEngine.generateBeginnerPlan,
        reason := "Mode grand débutant activé (test max < 5 reps). Plan fixe.",
        reliability := ⟨false, "Mode débutant.", 0⟩, isBeginnerMode := true } ∧
    AlgorithmEngine.generateBeginnerPlan =
      ⟨⟨5, 3, 90, "DEBUTANT"⟩, ⟨5, 3, 90, "DEBUTANT"⟩, ⟨5, 3, 90, "DEBUTANT"⟩,
       ⟨5, 3, 90, "DEBUTANT"⟩, ⟨5, 3, 90, "DEBUTANT"⟩, ⟨5, 3, 90, "DEBUTANT"⟩⟩ :=
  C2_beginner_override [linearAlgorithm] 7 [] [] true 3 linearAlgorithm rfl
    (by norm_num)

/-- A plan whose six days are identical. -/
def mkUniformPlan (d : DayPlan) : Plan := ⟨d, d, d, d, d, d⟩

/-- C3: with an impossible session last week and `testMax ≥ 5`, the orchestrator
    applies, after strategy plan generation and before the final clamp, the
    transformation `sets × 2`, `reps = ceil(reps / 2)`, `rest = max(30, rest − 15)`
    to every day; in particular a day of 4 × 10 × 60 s becomes 8 × 5 × 45 s and the
    subsequent safety clamp leaves those values unchanged. -/
theorem C3_impossible_rule (algos : List Algorithm) (name : String) (w : ℤ) (tm : ℚ)
    (h : History) (htm : 5 ≤ tm) :
    (∀ p, AlgorithmEngine.generateRawPlan algos name w tm h = .ok p →
      AlgorithmEngine.generateWeekPlan algos name w tm h true =
        .ok (AlgorithmEngine.applySafetyBounds (AlgorithmEngine.applyImpossibleRule p) tm)) ∧
    (∀ p, (AlgorithmEngine.applyImpossibleRule p).days = p.days.map (fun d =>
      ⟨d.series * 2, ((⌈d.reps / 2⌉ : ℤ) : ℚ), max 30 (d.rest - 15), d.type⟩)) ∧
    AlgorithmEngine.applySafetyBounds
      (AlgorithmEngine.applyImpossibleRule (mkUniformPlan ⟨4, 10, 60, "FORCE"⟩)) tm
      = mkUniformPlan ⟨8, 5, 45, "FORCE"⟩ := by
  refine ⟨fun p hp => ?_, fun p => rfl, ?_⟩
  · rw [AlgorithmEngine.generateWeekPlan, if_neg (not_lt.mpr (by linarith)), hp]
    rfl
  · have h6 := six_le_ceilMul htm
    have hceil : ((⌈(10 : ℚ) / 2⌉ : ℤ) : ℚ) = 5 := by
      rw [show (10 : ℚ) / 2 = ((5 : ℤ) : ℚ) by norm_num, Int.ceil_intCast]
      norm_num
    have hday : (fun d => AlgorithmEngine.applySafetyBounds
        (AlgorithmEngine.applyImpossibleRule (mkUniformPlan d)) tm) ⟨4, 10, 60, "FORCE"⟩
        = mkUniformPlan ⟨8, 5, 45, "FORCE"⟩ := by
      simp only [AlgorithmEngine.applySafetyBounds, AlgorithmEngine.applyImpossibleRule,
        mkUniformPlan, Plan.map]
      have hseries : clamp ((4 : ℚ) * 2) 2 10 = 8 := by
        rw [clamp, min_eq_right (by norm_num), max_eq_right (by norm_num)]
        norm_num
      have hreps : clamp ((⌈(10 : ℚ) / 2⌉ : ℤ) : ℚ) 3 ((⌈tm * 1.2⌉ : ℤ) : ℚ) = 5 := by
        rw [hceil, clamp, min_eq_right (by linarith), max_eq_right (by norm_num)]
      have hrest : clamp (jsRound (max 30 ((60 : ℚ) - 15))) 20 180 = 45 := by
        have hm : max (30 : ℚ) (60 - 15) = 45 := by rw [max_eq_right] <;> norm_num
        have hjr : jsRound (45 : ℚ) = 45 := by
          rw [jsRound, show (⌊(45 : ℚ) + 1/2⌋ : ℤ) = 45 from by
            rw [Int.floor_eq_iff] <;> norm_num]
          norm_num
        rw [hm, hjr, clamp, min_eq_right (by norm_num), max_eq_right (by norm_num)]
      rw [hseries, hreps, hrest]
    exact hday

/-- Witness for C3: linear registry, week 1, `testMax = 10`, empty history. -/
theorem C3_impossible_rule_witness :
    AlgorithmEngine.generateWeekPlan [linearAlgorithm] "linear" 1 10 [] true =
      .ok (AlgorithmEngine.applySafetyBounds
        (AlgorithmEngine.applyImpossibleRule (LinearAlgorithm.generatePlan 1 10 [])) 10) ∧
    AlgorithmEngine.applySafetyBounds
      (AlgorithmEngine.applyImpossibleRule (mkUniformPlan ⟨4, 10, 60, "FORCE"⟩)) 10
      = mkUniformPlan ⟨8, 5, 45, "FORCE"⟩ :=
  ⟨(C3_impossible_rule [linearAlgorithm] "linear" 1 10 [] (by norm_num)).1
      (LinearAlgorithm.generatePlan 1 10 []) rfl,
   (C3_impossible_rule [linearAlgorithm] "linear" 1 10 [] (by norm_num)).2.2⟩

/-- C9: `processNewWeek` and every strategy's `predictTestMax` and `generatePlan`
    are deterministic — structurally identical arguments give structurally
    identical results (all embedded operations are pure functions). -/
theorem C9_determinism :
    (∀ (algos : List Algorithm) (w w' : ℤ) (tm tm' : ℚ) (h h' : History)
      (sh sh' : ScoringHistory) (imp imp' : Bool),
      w = w' → tm = tm' → h = h' → sh = sh' → imp = imp' →
      AlgorithmEngine.processNewWeek algos w tm h sh imp
        = AlgorithmEngine.processNewWeek algos w' tm' h' sh' imp') ∧
    (∀ (a : Algorithm) (w w' : ℤ) (h h' : History), w = w' → h = h' →
      a.predictTestMax w h = a.predictTestMax w' h') ∧
    (∀ (a : Algorithm) (w w' : ℤ) (tm tm' : ℚ) (h h' : History),
      w = w' → tm = tm' → h = h' →
      a.generatePlan w tm h = a.generatePlan w' tm' h') := by
  refine ⟨?_, ?_, ?_⟩
  · intro algos w w' tm tm' h h' sh sh' imp imp' hw htm hh hsh himp
    subst hw; subst htm; subst hh; subst hsh; subst himp; rfl
  · intro a w w' h h' hw hh
    subst hw; subst hh; rfl
  · intro a w w' tm tm' h h' hw htm hh
    subst hw; subst htm; subst hh; rfl

/-- Witness for C9 at concrete identical inputs. -/
theorem C9_determinism_witness :
    AlgorithmEngine.processNewWeek [linearAlgorithm] 2 8 [] [] false
      = AlgorithmEngine.processNewWeek [linearAlgorithm] 2 8 [] [] false ∧
    linearAlgorithm.predictTestMax 2 [] = linearAlgorithm.predictTestMax 2 [] ∧
    rirAlgorithm.generatePlan 2 8 [] = rirAlgorithm.generatePlan 2 8 [] :=
  ⟨C9_determinism.1 [linearAlgorithm] 2 2 8 8 [] [] [] [] false false rfl rfl rfl rfl rfl,
   C9_determinism.2.1 linearAlgorithm 2 2 [] [] rfl rfl,
   C9_determinism.2.2 rirAlgorithm 2 2 8 8 [] [] rfl rfl rfl⟩

/-- Evaluation rule for `roundTo` on concrete inputs. -/
theorem roundTo_eq (x : ℚ) (d : ℕ) (z : ℤ) (h1 : (z : ℚ) ≤ x * 10 ^ d + 1/2)
    (h2 : x * 10 ^ d + 1/2 < z + 1) : roundTo x d = (z : ℚ) / 10 ^ d := by
  rw [roundTo, Int.floor_eq_iff.mpr ⟨h1, h2⟩]

/-- C6 (boundary bug): a previous week with feedbacks 3 × facile and 1 × parfait
    has average RIR exactly 3.5; `_getVolumeMultiplier` then selects the 4.0
    multiplier (its first entry is tested with `rirMoyen >= 3.5`), although the
    claim's ordered table — like the code's own doc table (`> 3.5 → 4.0`,
    `2.0 – 3.5 → 3.5`) — assigns 3.5 at that point, since `3.5 > 3.5` is false. -/
theorem C6_volume_multiplier_boundary :
    RIRAlgorithm.calculateRIRFromFeedbacks ⟨3, 1, 0, none⟩ = 3.5 ∧
    RIRAlgorithm.getWeekRIR (some ⟨2, some 20, none, some ⟨3, 1, 0, none⟩, []⟩) = 3.5 ∧
    (RIRAlgorithm.getVolumeMultiplier 3.5).multiplier = 4 ∧
    ¬ ((3.5 : ℚ) > 3.5) := by
  have ha : RIRAlgorithm.calculateRIRFromFeedbacks ⟨3, 1, 0, none⟩ = 3.5 := by
    rw [RIRAlgorithm.calculateRIRFromFeedbacks]
    norm_num
    rw [roundTo_eq (7/2) 1 35 (by norm_num) (by norm_num)]
    norm_num
  refine ⟨ha, ha, ?_, by norm_num⟩
  rw [RIRAlgorithm.getVolumeMultiplier, if_pos (le_refl (3.5 : ℚ))]
  norm_num

/-- C10: every non-null value of the map returned by `getAllPredictions` is an
    integer ≥ 1 (`Math.max(1, round(predicted))`), for every weekNumber, every
    registry and every history. -/
theorem C10_predictions_integral (algos : List Algorithm) (w : ℤ) (h : History)
    (n : String) (v : ℚ)
    (hm : (n, some v) ∈ AlgorithmEngine.getAllPredictions algos w h) :
    1 ≤ v ∧ v.den = 1 := by
  rw [AlgorithmEngine.getAllPredictions] at hm
  obtain ⟨name, hname, hentry⟩ := List.mem_filterMap.mp hm
  rw [AlgorithmEngine.predictionEntry] at hentry
  split at hentry
  · cases hentry
  · split at hentry
    · rename_i algo heq p hpred
      injection hentry with hentry
      have hv : v = max 1 (jsRound p) := by
        have hsnd := congrArg Prod.snd hentry
        simpa using hsnd.symm
      subst hv
      refine ⟨le_max_left _ _, ?_⟩
      rcases max_choice (1 : ℚ) (jsRound p) with hc | hc
      · rw [hc]; rfl
      · rw [hc, jsRound]; exact Rat.den_intCast _
    · injection hentry with hentry
      have hsnd := congrArg Prod.snd hentry
      simp at hsnd

/-- Witness for C10: the linear prediction for week 2 on an empty history is 1. -/
theorem C10_predictions_integral_witness : (1 : ℚ) ≤ 1 ∧ (1 : ℚ).den = 1 :=
  C10_predictions_integral [linearAlgorithm] 2 [] "linear" 1 (by
    have hstruct : AlgorithmEngine.getAllPredictions [linearAlgorithm] 2 [] =
        [("linear", some (max 1 (jsRound (LinearAlgorithm.predictTestMax 2 []))))] := rfl
    have hp : LinearAlgorithm.predictTestMax 2 [] = 1 := by
      rw [LinearAlgorithm.predictTestMax, if_pos rfl]
    have hval : max (1 : ℚ) (jsRound (LinearAlgorithm.predictTestMax 2 [])) = 1 := by
      rw [hp, jsRound, show (⌊(1 : ℚ) + 1/2⌋ : ℤ) = 1 from by
        rw [Int.floor_eq_iff] <;> norm_num]
      norm_num
    rw [hstruct, hval]
    exact List.mem_singleton.mpr rfl)

/-- A prediction entry recorded for `name` always carries `name` as its key. -/
theorem predictionEntry_fst (algos : List Algorithm) (w : ℤ) (h : History)
    (name : String) (e : String × Option ℚ)
    (he : AlgorithmEngine.predictionEntry algos w h name = some e) : e.1 = name := by
  rw [AlgorithmEngine.predictionEntry] at he
  split at he
  · cases he
  · split at he <;> (injection he with he; subst he; rfl)

/-- The entry that `getAllPredictions` records for a name depends only on that
    name's own registered algorithm: registries agreeing at `m` produce the same
    entry for `m`. -/
theorem getAllPredictions_entry_congr (algos algos' : List Algorithm) (w : ℤ)
    (h : History) (m : String)
    (hfind : findAlgorithm algos m = findAlgorithm algos' m) :
    ∀ names : List String,
      (names.filterMap (AlgorithmEngine.predictionEntry algos w h)).find?
          (fun x => x.1 == m)
        = (names.filterMap (AlgorithmEngine.predictionEntry algos' w h)).find?
          (fun x => x.1 == m) := by
  intro names
  induction names with
  | nil => rfl
  | cons nm t ih =>
    rw [List.filterMap_cons, List.filterMap_cons]
    by_cases hnm : nm = m
    · subst hnm
      have hagree : AlgorithmEngine.predictionEntry algos w h nm
          = AlgorithmEngine.predictionEntry algos' w h nm := by
        rw [AlgorithmEngine.predictionEntry, AlgorithmEngine.predictionEntry, hfind]
      rw [hagree]
      cases he : AlgorithmEngine.predictionEntry algos' w h nm with
      | none => exact ih
      | some e =>
        have hfst : e.1 = nm := predictionEntry_fst algos' w h nm e he
        rw [List.find?_cons_of_pos _ (by rw [hfst]; exact beq_self_eq_true nm),
          List.find?_cons_of_pos _ (by rw [hfst]; exact beq_self_eq_true nm)]
    · cases he : AlgorithmEngine.predictionEntry algos w h nm with
      | none =>
        cases he' : AlgorithmEngine.predictionEntry algos' w h nm with
        | none => exact ih
        | some e' =>
          have hfst' : e'.1 = nm := predictionEntry_fst algos' w h nm e' he'
          rw [List.find?_cons_of_neg _ (by rw [hfst']; simpa using hnm)]
          exact ih
      | some e =>
        have hfst : e.1 = nm := predictionEntry_fst algos w h nm e he
        rw [List.find?_cons_of_neg _ (by rw [hfst]; simpa using hnm)]
        cases he' : AlgorithmEngine.predictionEntry algos' w h nm with
        | none => exact ih
        | some e' =>
          have hfst' : e'.1 = nm := predictionEntry_fst algos' w h nm e' he'
          rw [List.find?_cons_of_neg _ (by rw [hfst']; simpa using hnm)]
          exact ih

/-- C8: a throwing `predictTestMax` is recorded as a `null` prediction and leaves
    the other strategies' entries untouched; a throwing `generatePlan` of the
    selected strategy is replaced by the registered linear strategy's plan for the
    same inputs; with the (total) linear strategy registered, `processNewWeek`
    always returns a result — no strategy failure escapes it. -/
theorem C8_error_recovery :
    (∀ (algos : List Algorithm) (w : ℤ) (h : History) (n : String) (a : Algorithm)
      (e : String), n ∈ AlgorithmEngine.getEligibleAlgorithms w →
      findAlgorithm algos n = some a → a.predictTestMax w h = .error e →
      (n, (none : Option ℚ)) ∈ AlgorithmEngine.getAllPredictions algos w h) ∧
    (∀ (algos algos' : List Algorithm) (w : ℤ) (h : History) (m : String),
      findAlgorithm algos m = findAlgorithm algos' m →
      (AlgorithmEngine.getAllPredictions algos w h).find? (fun x => x.1 == m)
        = (AlgorithmEngine.getAllPredictions algos' w h).find? (fun x => x.1 == m)) ∧
    (∀ (algos : List Algorithm) (name : String) (w : ℤ) (tm : ℚ) (h : History)
      (a lin : Algorithm) (e : String),
      findAlgorithm algos name = some a → a.generatePlan w tm h = .error e →
      findAlgorithm algos "linear" = some lin →
      AlgorithmEngine.generateRawPlan algos name w tm h = lin.generatePlan w tm h) ∧
    (∀ (algos : List Algorithm) (w : ℤ) (tm : ℚ) (h : History)
      (sh : ScoringHistory) (imp : Bool),
      findAlgorithm algos "linear" = some linearAlgorithm →
      (AlgorithmEngine.processNewWeek algos w tm h sh imp).toOption.isSome = true) := by
  refine ⟨?_, ?_, ?_, ?_⟩
  · intro algos w h n a e hn hfa herr
    rw [AlgorithmEngine.getAllPredictions]
    exact List.mem_filterMap.mpr ⟨n, hn, by
      simp only [AlgorithmEngine.predictionEntry, hfa, herr]⟩
  · intro algos algos' w h m hfind
    exact getAllPredictions_entry_congr algos algos' w h m hfind _
  · intro algos name w tm h a lin e hfa herr hlin
    simp only [AlgorithmEngine.generateRawPlan, hfa, herr, hlin]
  · intro algos w tm h sh imp hlin
    by_cases h5 : tm < 5
    · rw [AlgorithmEngine.processNewWeek, if_pos h5, hlin]
      rfl
    · have hraw : ∀ nm, ∃ p,
          AlgorithmEngine.generateRawPlan algos nm w tm h = .ok p := by
        intro nm
        cases hf : findAlgorithm algos nm with
        | none =>
          exact ⟨LinearAlgorithm.generatePlan w tm h, by
            simp only [AlgorithmEngine.generateRawPlan, hf, hlin]
            rfl⟩
        | some a =>
          cases hg : a.generatePlan w tm h with
          | ok p =>
            exact ⟨p, by simp only [AlgorithmEngine.generateRawPlan, hf, hg]⟩
          | error e =>
            exact ⟨LinearAlgorithm.generatePlan w tm h, by
              simp only [AlgorithmEngine.generateRawPlan, hf, hg, hlin]
              rfl⟩
      obtain ⟨p, hp⟩ := hraw
        (AlgorithmEngine.selectBestAlgorithm algos w tm h sh).algorithm
      simp only [AlgorithmEngine.processNewWeek, AlgorithmEngine.generateWeekPlan,
        if_neg h5, hp]
      rfl

/-- A strategy whose methods always throw, used to witness C8. -/
def failingAlgo : Algorithm :=
  { name := "dup", label := "DUP", predictTestMax := fun _ _ => .error "boom",
    generatePlan := fun _ _ _ => .error "boom" }

/-- Witness for C8 with the failing `dup` strategy registered next to linear. -/
theorem C8_error_recovery_witness :
    ("dup", (none : Option ℚ)) ∈
      AlgorithmEngine.getAllPredictions [linearAlgorithm, failingAlgo] 3 [] ∧
    (AlgorithmEngine.getAllPredictions [linearAlgorithm, failingAlgo] 3 []).find?
        (fun x => x.1 == "linear")
      = (AlgorithmEngine.getAllPredictions [linearAlgorithm] 3 []).find?
        (fun x => x.1 == "linear") ∧
    AlgorithmEngine.generateRawPlan [linearAlgorithm, failingAlgo] "dup" 3 10 []
      = linearAlgorithm.generatePlan 3 10 [] ∧
    (AlgorithmEngine.processNewWeek [linearAlgorithm, failingAlgo] 3 10 [] []
      false).toOption.isSome = true :=
  ⟨C8_error_recovery.1 [linearAlgorithm, failingAlgo] 3 [] "dup" failingAlgo "boom"
      (by simp [AlgorithmEngine.getEligibleAlgorithms]) rfl rfl,
   C8_error_recovery.2.1 [linearAlgorithm, failingAlgo] [linearAlgorithm] 3 []
      "linear" rfl,
   C8_error_recovery.2.2.1 [linearAlgorithm, failingAlgo] "dup" 3 10 [] failingAlgo
      linearAlgorithm "boom" rfl rfl rfl,
   C8_error_recovery.2.2.2 [linearAlgorithm, failingAlgo] 3 10 [] [] false rfl⟩

/-- Splitting a successful `find?`: the list decomposes around the found element,
    and everything before it fails the predicate. -/
theorem find?_split {α : Type} {p : α → Bool} {l : List α} {m : α}
    (h : l.find? p = some m) :
    ∃ l₁ l₂, l = l₁ ++ m :: l₂ ∧ ∀ a ∈ l₁, p a = false := by
  induction l with
  | nil => cases h
  | cons a t ih =>
    by_cases hpa : p a
    · rw [List.find?_cons_of_pos _ hpa] at h
      injection h with h
      subst h
      exact ⟨[], t, rfl, by simp⟩
    · rw [List.find?_cons_of_neg _ hpa] at h
      obtain ⟨l₁, l₂, rfl, hfail⟩ := ih h
      refine ⟨a :: l₁, l₂, rfl, ?_⟩
      intro x hx
      rcases List.mem_cons.mp hx with rfl | hx'
      · simpa using hpa
      · exact hfail x hx'

/-- The head of the stable descending sort used by `selectBestAlgorithm` is the
    first element of the original (eligibility-ordered, duplicate-free) list
    attaining the maximal composite score. -/
theorem mergeSort_head_firstMax (l : List (String × AlgorithmScorer.Score))
    (hnd : l.Nodup) (b : String × AlgorithmScorer.Score)
    (rest : List (String × AlgorithmScorer.Score))
    (hsort : l.mergeSort AlgorithmScorer.cmpComposite = b :: rest) :
    l.find? (fun e => decide (∀ x ∈ l, x.2.composite ≤ e.2.composite)) = some b := by
  have htrans : ∀ (a c d : String × AlgorithmScorer.Score),
      AlgorithmScorer.cmpComposite a c → AlgorithmScorer.cmpComposite c d →
      AlgorithmScorer.cmpComposite a d := by
    intro a c d h1 h2
    simp only [AlgorithmScorer.cmpComposite, decide_eq_true_eq] at *
    exact le_trans h2 h1
  have htotal : ∀ (a c : String × AlgorithmScorer.Score),
      AlgorithmScorer.cmpComposite a c || AlgorithmScorer.cmpComposite c a := by
    intro a c
    simp only [AlgorithmScorer.cmpComposite]
    rcases le_total (a.2.composite) (c.2.composite) with h | h
    · simp [h]
    · simp [h]
  have hperm : List.Perm (l.mergeSort AlgorithmScorer.cmpComposite) l :=
    List.mergeSort_perm l AlgorithmScorer.cmpComposite
  have hbl : b ∈ l := hperm.mem_iff.mp (by rw [hsort]; exact List.mem_cons_self b rest)
  have hsorted := List.sorted_mergeSort htrans htotal l
  rw [hsort] at hsorted
  have hmaxb : ∀ x ∈ l, x.2.composite ≤ b.2.composite := by
    intro x hx
    have hx' : x ∈ b :: rest := by rw [← hsort]; exact hperm.mem_iff.mpr hx
    rcases List.mem_cons.mp hx' with rfl | hx''
    · exact le_refl _
    · have hc := (List.pairwise_cons.mp hsorted).1 x hx''
      simpa [AlgorithmScorer.cmpComposite] using hc
  have hsome : (l.find? (fun e =>
      decide (∀ x ∈ l, x.2.composite ≤ e.2.composite))).isSome := by
    rw [List.find?_isSome]
    exact ⟨b, hbl, by simpa using hmaxb⟩
  obtain ⟨m, hm⟩ := Option.isSome_iff_exists.mp hsome
  have hpm : ∀ x ∈ l, x.2.composite ≤ m.2.composite := by
    have := List.find?_some hm
    simpa using this
  have hml : m ∈ l := List.mem_of_find?_eq_some hm
  by_cases hmb : m = b
  · rw [hm, hmb]
  · exfalso
    obtain ⟨l₁, l₂, hsplit, hfail⟩ := find?_split hm
    have hbl1 : b ∉ l₁ := by
      intro hb1
      have hf := hfail b hb1
      exact (by simpa using hf : ¬ ∀ x ∈ l, x.2.composite ≤ b.2.composite) hmaxb
    have hbl2 : b ∈ l₂ := by
      have hb : b ∈ l₁ ++ m :: l₂ := by rw [← hsplit]; exact hbl
      rcases List.mem_append.mp hb with h1 | h2
      · exact absurd h1 hbl1
      · rcases List.mem_cons.mp h2 with h3 | h4
        · exact absurd h3.symm hmb
        · exact h4
    have hsub : List.Sublist [m, b] l := by
      rw [hsplit]
      exact ((List.singleton_sublist.mpr hbl2).cons₂ m).trans
        (List.sublist_append_right l₁ (m :: l₂))
    have hpair : ([m, b] : List (String × AlgorithmScorer.Score)).Pairwise
        (fun x y => AlgorithmScorer.cmpComposite x y) := by
      refine List.pairwise_cons.mpr ⟨?_, by simp⟩
      intro y hy
      have hyb : y = b := by simpa using hy
      rw [hyb]
      simp only [AlgorithmScorer.cmpComposite, decide_eq_true_eq]
      exact hpm b hbl
    have hstable := List.sublist_mergeSort htrans htotal hpair hsub
    rw [hsort] at hstable
    have hndms : (b :: rest).Nodup := by
      rw [← hsort]
      exact (hperm.nodup_iff).mpr hnd
    cases hstable with
    | cons a h' =>
      have hbr : b ∈ rest := h'.subset (by simp)
      exact (List.nodup_cons.mp hndms).1 hbr
    | cons₂ a h' => exact hmb rfl

/-- The eligibility lists are duplicate-free. -/
theorem eligible_nodup (w : ℤ) : (AlgorithmEngine.getEligibleAlgorithms w).Nodup := by
  rw [AlgorithmEngine.getEligibleAlgorithms]
  split_ifs <;> decide

/-- The scored entries carry the eligible names, in eligibility order. -/
theorem scoreAll_fst (wh : History) (sh : ScoringHistory) (preds : Predictions)
    (tm : ℚ) (eligible : List String) :
    (AlgorithmScorer.scoreAllAlgorithms wh sh preds tm eligible).map Prod.fst
      = eligible := by
  simp only [AlgorithmScorer.scoreAllAlgorithms, List.map_map]
  exact List.map_id eligible

/-- C5: `selectBestAlgorithm` returns a strategy of maximal composite score among
    the scored eligible strategies, and on exact ties the first-declared one in
    the fixed eligibility order (the entries of `scoreAllAlgorithms` follow that
    order, and the stable descending sort's head is the first maximal entry). -/
theorem C5_argmax_tiebreak (w : ℤ) (wh : History) (sh : ScoringHistory)
    (preds : Predictions) (tm : ℚ)
    (hne : AlgorithmEngine.getEligibleAlgorithms w ≠ []) :
    (AlgorithmScorer.scoreAllAlgorithms wh sh preds tm
        (AlgorithmEngine.getEligibleAlgorithms w)).map Prod.fst
      = AlgorithmEngine.getEligibleAlgorithms w ∧
    ((AlgorithmScorer.scoreAllAlgorithms wh sh preds tm
        (AlgorithmEngine.getEligibleAlgorithms w)).find? (fun e =>
          decide (∀ x ∈ AlgorithmScorer.scoreAllAlgorithms wh sh preds tm
            (AlgorithmEngine.getEligibleAlgorithms w),
            x.2.composite ≤ e.2.composite))).map Prod.fst
      = some (AlgorithmScorer.selectBestAlgorithm
          (AlgorithmScorer.scoreAllAlgorithms wh sh preds tm
            (AlgorithmEngine.getEligibleAlgorithms w))).name ∧
    (∀ e ∈ AlgorithmScorer.scoreAllAlgorithms wh sh preds tm
        (AlgorithmEngine.getEligibleAlgorithms w),
      e.2.composite ≤ (AlgorithmScorer.selectBestAlgorithm
        (AlgorithmScorer.scoreAllAlgorithms wh sh preds tm
          (AlgorithmEngine.getEligibleAlgorithms w))).score) := by
  set eligible := AlgorithmEngine.getEligibleAlgorithms w with helig
  set scores := AlgorithmScorer.scoreAllAlgorithms wh sh preds tm eligible with hscores
  have hfst : scores.map Prod.fst = eligible := scoreAll_fst wh sh preds tm eligible
  have hnd : scores.Nodup := by
    apply List.Nodup.of_map Prod.fst
    rw [hfst]
    exact eligible_nodup w
  have hsne : scores ≠ [] := by
    intro h0
    apply hne
    rw [← hfst, h0]
    rfl
  cases hms : scores.mergeSort AlgorithmScorer.cmpComposite with
  | nil =>
    exfalso
    apply hsne
    apply List.length_eq_zero.mp
    have hl := congrArg List.length hms
    simpa using hl
  | cons bpair restSorted =>
    have hbest : AlgorithmScorer.selectBestAlgorithm scores =
        ⟨bpair.1, bpair.2.composite, AlgorithmScorer.generateReason bpair.2 restSorted⟩ := by
      rw [AlgorithmScorer.selectBestAlgorithm, hms]
    have hhead := mergeSort_head_firstMax scores hnd bpair restSorted hms
    have hmax : ∀ x ∈ scores, x.2.composite ≤ bpair.2.composite := by
      have := List.find?_some hhead
      simpa using this
    refine ⟨hfst, ?_, ?_⟩
    · rw [hhead, hbest]
      rfl
    · intro e he
      rw [hbest]
      exact hmax e he

/-- Witness for C5 at week 4 with empty data (all five strategies tie at 50,
    linear — the first declared — is selected). -/
theorem C5_argmax_tiebreak_witness :
    (AlgorithmScorer.scoreAllAlgorithms [] [] [] 10
        (AlgorithmEngine.getEligibleAlgorithms 4)).map Prod.fst
      = AlgorithmEngine.getEligibleAlgorithms 4 ∧
    ((AlgorithmScorer.scoreAllAlgorithms [] [] [] 10
        (AlgorithmEngine.getEligibleAlgorithms 4)).find? (fun e =>
          decide (∀ x ∈ AlgorithmScorer.scoreAllAlgorithms [] [] [] 10
            (AlgorithmEngine.getEligibleAlgorithms 4),
            x.2.composite ≤ e.2.composite))).map Prod.fst
      = some (AlgorithmScorer.selectBestAlgorithm
          (AlgorithmScorer.scoreAllAlgorithms [] [] [] 10
            (AlgorithmEngine.getEligibleAlgorithms 4))).name ∧
    (∀ e ∈ AlgorithmScorer.scoreAllAlgorithms [] [] [] 10
        (AlgorithmEngine.getEligibleAlgorithms 4),
      e.2.composite ≤ (AlgorithmScorer.selectBestAlgorithm
        (AlgorithmScorer.scoreAllAlgorithms [] [] [] 10
          (AlgorithmEngine.getEligibleAlgorithms 4))).score) :=
  C5_argmax_tiebreak 4 [] [] [] 10 (by simp [AlgorithmEngine.getEligibleAlgorithms])

end AbdoPro
